import Mathlib

/-!
Verification development for the Job Search & Indexing subsystem of
aalug/go-gin-job-search.

The Go sources are shallowly embedded below:
  * `esearch` types (`Job`, `contextKey`, `JobKey`, `ClientKey`) from the
    package `esearch` type file;
  * `IndexJobsAsDocuments` and `convertToReadSeeker` from
    `esearch/index.go`, with the external `esutil.BulkIndexer` collaborator
    modelled by an environment (`BulkEnv`) describing the outcomes of the
    external calls (session establishment, per-item enqueue, per-item
    acknowledgement by the index);
  * the Skill Matching Engine and the Filtered Search Query Engine, whose
    Go code is not part of the sources at hand (only their router
    registrations and relational tests are), are modelled from the spec and
    marked as such in their doc comments.
-/

namespace JobSearch

/-- The document type indexed for search, from the `esearch` package type
file: `type Job struct` with fields ID, Title, Industry, CompanyName,
Description, Location, SalaryMin, SalaryMax, Requirements, JobSkills.
Int32 fields are modelled as `Int` (no arithmetic is performed on them). -/
structure Job where
  id : Int
  title : String
  industry : String
  companyName : String
  description : String
  location : String
  salaryMin : Int
  salaryMax : Int
  requirements : String
  jobSkills : List String
deriving DecidableEq

/-- From the `esearch` package type file: `type contextKey struct { Key int }`. -/
structure contextKey where
  key : Int
deriving DecidableEq

/-- `var JobKey contextKey = contextKey{Key: 1}` -/
def JobKey : contextKey := ⟨1⟩

/-- `var ClientKey contextKey = contextKey{Key: 2}` -/
def ClientKey : contextKey := ⟨2⟩

/-- A dynamically-typed value stored in a Go `context.Context`. The two
variants the code asserts to are `[]Job` and `*elasticsearch.Client`
(the client handle itself is opaque to the code, modelled by a `Nat` tag);
`other` stands for a value of any different dynamic type. -/
inductive CtxValue where
  | jobs (js : List Job)
  | client (c : Nat)
  | other (s : String)
deriving DecidableEq

/-- A Go `context.Context` restricted to what the code reads from it:
`ctx.Value(k)` either yields a stored dynamic value or `nil` (`none`). -/
def Context : Type := contextKey → Option CtxValue

/-- Deterministic stand-in for the `encoding/json` serialization performed
by `esutil.NewJSONReader(document)`: the same `Job` value always yields the
same bytes. Bytes are modelled as `String`. -/
def Job.encode (j : Job) : String :=
  String.intercalate "|"
    ([toString j.id, j.title, j.industry, j.companyName, j.description,
      j.location, toString j.salaryMin, toString j.salaryMax,
      j.requirements] ++ j.jobSkills)

/-- An `io.Reader` as the code consumes it: `io.ReadAll` drains it fully,
obtaining the concatenation of its chunks, and then either a clean EOF
(`failure = none`) or a read error (`failure = some e`). -/
structure Reader where
  chunks : List String
  failure : Option String
deriving DecidableEq

/-- `io.ReadAll(reader)`: the accumulated data and the terminal error, if
any (on error Go returns the data read so far together with the error). -/
def readAll (r : Reader) : String × Option String :=
  (String.join r.chunks, r.failure)

/-- A `bytes.Reader` (an `io.ReadSeeker`): in-memory data plus a cursor. -/
structure ReadSeeker where
  data : String
  pos : Nat
deriving DecidableEq

/-- `bytes.NewReader(data)`: a fresh seekable reader positioned at 0. -/
def bytesNewReader (data : String) : ReadSeeker :=
  ⟨data, 0⟩

/-- The byte content obtained by seeking to the start and reading all. -/
def ReadSeeker.readFromStart (rs : ReadSeeker) : String :=
  rs.data

/-- `convertToReadSeeker` from `esearch/index.go`: read the entire content
of the reader into a buffer (propagating a read error), then wrap the
buffer in a `bytes.Reader`. -/
def convertToReadSeeker (reader : Reader) : Except String ReadSeeker :=
  let res := readAll reader
  match res.2 with
  | some e => .error e
  | none => .ok (bytesNewReader res.1)

/-- `esutil.NewJSONReader(document)`: a reader over the JSON encoding of
the document; producing those bytes cannot fail for this field set. -/
def newJSONReader (j : Job) : Reader :=
  ⟨[j.encode], none⟩

/-- One `esutil.BulkIndexerItem` as built in the loop of
`IndexJobsAsDocuments`: an action, a document identifier, and a body. -/
structure BulkIndexerItem where
  action : String
  documentID : String
  body : ReadSeeker
deriving DecidableEq

/-- Outcomes of the external elasticsearch collaborator during one run:
whether `esutil.NewBulkIndexer` fails (session-level failure), whether the
i-th `bulkIndexer.Add` call fails at enqueue time, and whether the index
acknowledges the i-th enqueued item as successfully indexed (`ack i =
false` is an individual document indexing failure, recorded in the
indexer statistics). -/
structure BulkEnv where
  sessionErr : Option String
  addErr : Nat → Option String
  ack : Nat → Bool

/-- The caller-visible result of running `IndexJobsAsDocuments`: the Go
function has no return values, so a run either panics (a failed type
assertion or a `panic(err)`) or completes, emitting one log line. -/
inductive Outcome where
  | panicked (reason : String)
  | completed (logged : String)
deriving DecidableEq

/-- A run result paired with the trace of bulk items that were dispatched
(successfully handed to `bulkIndexer.Add`) before the run ended. -/
structure RunResult where
  outcome : Outcome
  dispatched : List BulkIndexerItem
deriving DecidableEq

/-- The message of a Go panic raised by a failed type assertion `x.(T)`. -/
def typeAssertionPanic : String :=
  "interface conversion"

/-- The loop of `IndexJobsAsDocuments`: `for documentID, document := range
jobs` builds, for the document at (zero-based) position `documentID`, a
body via `convertToReadSeeker(esutil.NewJSONReader(document))` and calls
`bulkIndexer.Add` with action `"index"` and DocumentID
`strconv.Itoa(documentID)`. A conversion error or an `Add` error is raised
as `panic(err)`, ending the loop; the result is the list of items added so
far plus the panic reason, if any. -/
def dispatchLoop (env : BulkEnv) : Nat → List Job → List BulkIndexerItem × Option String
  | _, [] => ([], none)
  | i, j :: rest =>
    match convertToReadSeeker (newJSONReader j) with
    | .error e => ([], some e)
    | .ok body =>
      match env.addErr i with
      | some e => ([], some e)
      | none =>
        let tail := dispatchLoop env (i + 1) rest
        (⟨"index", toString i, body⟩ :: tail.1, tail.2)

/-- The statistics the `esutil` bulk indexer reports after `Close`: among
the dispatched items, how many the index acknowledged (`NumIndexed`). -/
def numIndexed (env : BulkEnv) (items : List BulkIndexerItem) : Nat :=
  ((List.range items.length).filter (fun i => env.ack i)).length

/-- The statistics counterpart `NumFailed`: dispatched items the index
did not acknowledge. -/
def numFailed (env : BulkEnv) (items : List BulkIndexerItem) : Nat :=
  ((List.range items.length).filter (fun i => !env.ack i)).length

/-- The single log line the function emits:
`log.Printf("Jobs indexed on Elasticsearch: %d \n", biStats.NumIndexed)`. -/
def logLine (n : Nat) : String :=
  "Jobs indexed on Elasticsearch: " ++ toString n ++ " \n"

/-- `IndexJobsAsDocuments(ctx)` from `esearch/index.go`. In source order:
assert `ctx.Value(JobKey).([]Job)`, assert
`ctx.Value(ClientKey).(*elasticsearch.Client)` (either failed assertion
panics before any indexing work), create the bulk indexer (`panic(err)`
on failure), dispatch every job through the loop (`panic(err)` on a
conversion or enqueue failure), then `Close`, read the statistics, and
log the number indexed. -/
def IndexJobsAsDocuments (env : BulkEnv) (ctx : Context) : RunResult :=
  match ctx JobKey with
  | some (CtxValue.jobs jobs) =>
    match ctx ClientKey with
    | some (CtxValue.client _) =>
      match env.sessionErr with
      | some e => ⟨Outcome.panicked e, []⟩
      | none =>
        let res := dispatchLoop env 0 jobs
        match res.2 with
        | some e => ⟨Outcome.panicked e, res.1⟩
        | none => ⟨Outcome.completed (logLine (numIndexed env res.1)), res.1⟩
    | _ => ⟨Outcome.panicked typeAssertionPanic, []⟩
  | _ => ⟨Outcome.panicked typeAssertionPanic, []⟩

/-! ### Observable state of the search index

The index an `"index"` bulk action writes to is a key-value store from
document identifier to stored document bytes; an `"index"` action fully
replaces the document under its key (elasticsearch index/replace
semantics). Only items the index acknowledged are stored. -/

/-- The observable state of the search index: stored bytes by document id. -/
def IndexState : Type := String → Option String

/-- A fully-replacing write of `v` under key `k`. -/
def storeWrite (k v : String) (s : IndexState) : IndexState :=
  fun k' => if k' = k then some v else s k'

/-- Apply a list of (document id, body bytes) writes in order,
last write per key winning. -/
def applyWrites : List (String × String) → IndexState → IndexState
  | [], s => s
  | kv :: ws, s => applyWrites ws (storeWrite kv.1 kv.2 s)

/-- The writes a run's dispatched items perform on the index: the items
the index acknowledged, as (document id, body bytes) pairs, in dispatch
order. -/
def ackedWrites (env : BulkEnv) (items : List BulkIndexerItem) : List (String × String) :=
  ((items.enum.filter (fun p => env.ack p.1)).map
    (fun p => (p.2.documentID, p.2.body.data)))

/-- One full synchronization run of `IndexJobsAsDocuments` as observed by
the index: the acknowledged dispatched items are applied to the state. -/
def syncOnce (env : BulkEnv) (jobs : List Job) (s : IndexState) : IndexState :=
  applyWrites (ackedWrites env (dispatchLoop env 0 jobs).1) s

/-! ### Skill Matching Engine (modelled from the spec)

The handler `listJobsByMatchingSkills` is registered in `api/server.go`
but its code (and the relational query it wraps) is not among the sources
at hand; only the relational `JobSkill` tests are. The engine is therefore
modelled from the spec's algorithm, section 4.3. -/

/-- Modelled from the spec: one `JobSkill` row of the relational store —
identity elided, owning job reference and free-text skill label
(the `JobSkill` query code is not among the sources at hand). -/
structure JobSkillRow where
  jobID : Int
  skill : String
deriving DecidableEq

/-- Modelled from the spec: a `MatchResult` — job id and overlap count. -/
structure MatchResult where
  jobID : Int
  score : Nat
deriving DecidableEq

/-- Modelled from the spec: the overlap score of job `jid` — in how many
of the queried skills the job appears (case-sensitive exact match). -/
def overlapScore (rows : List JobSkillRow) (query : List String) (jid : Int) : Nat :=
  (query.filter (fun s => rows.any (fun r => r.jobID == jid && r.skill == s))).length

/-- Modelled from the spec: the job ids declaring at least one queried
skill (the relational join of `JobSkill` rows filtered by the queried
labels), each id once. -/
def candidateIDs (rows : List JobSkillRow) (query : List String) : List Int :=
  ((rows.filter (fun r => query.contains r.skill)).map (fun r => r.jobID)).dedup

/-- Modelled from the spec: the ranking order — overlap score descending,
ties broken by job id ascending. -/
def rankLE (a b : MatchResult) : Bool :=
  b.score < a.score || (a.score == b.score && a.jobID ≤ b.jobID)

/-- Insert one result into a list sorted by `rankLE`. -/
def insertRanked (a : MatchResult) : List MatchResult → List MatchResult
  | [] => [a]
  | b :: rest => if rankLE a b then a :: b :: rest else b :: insertRanked a rest

/-- Sort results by `rankLE` (insertion sort — deterministic). -/
def rankSort : List MatchResult → List MatchResult
  | [] => []
  | a :: rest => insertRanked a (rankSort rest)

/-- Modelled from the spec: the Skill Matching Engine — aggregate the
queried skills by job id into overlap scores, exclude zero-overlap jobs,
and sort by score descending with ties broken by job id ascending. -/
def matchSkills (rows : List JobSkillRow) (query : List String) : List MatchResult :=
  rankSort
    (((candidateIDs rows query).map
        (fun jid => MatchResult.mk jid (overlapScore rows query jid))).filter
      (fun m => 0 < m.score))

/-! ### Filtered Search Query Engine (modelled from the spec)

The handler `filterAndListJobs` is registered in `api/server.go` but its
code is not among the sources at hand. The engine is modelled from the
spec, section 4.4: only supplied criteria participate, AND-combined;
salary bounds compare as `job.salary_max ≥ requested floor` and
`job.salary_min ≤ requested ceiling`. -/

/-- Modelled from the spec: whether `pat` occurs in `hay` (free-text
fragment match). -/
def containsSubstr (hay pat : String) : Bool :=
  (hay.splitOn pat).length != 1

/-- Modelled from the spec: the optional filter criteria of the Filtered
Search Query Engine — `none` means the criterion was not supplied. -/
structure SearchFilters where
  title : Option String
  industry : Option String
  location : Option String
  salaryMin : Option Int
  salaryMax : Option Int
deriving DecidableEq

/-- Modelled from the spec: the non-salary criteria, AND-combined; a
free-text title fragment matches title or description, industry and
location match exactly. -/
def otherCriteria (f : SearchFilters) (j : Job) : Bool :=
  (match f.title with
   | none => true
   | some t => containsSubstr j.title t || containsSubstr j.description t)
  && (match f.industry with
      | none => true
      | some s => j.industry == s)
  && (match f.location with
      | none => true
      | some s => j.location == s)

/-- Modelled from the spec: a job satisfies the filters when every
supplied criterion holds, the salary criteria comparing
`job.salary_max ≥ requested floor` and `job.salary_min ≤ requested
ceiling` as inclusive bounds. -/
def matchesFilters (f : SearchFilters) (j : Job) : Bool :=
  otherCriteria f j
  && (match f.salaryMin with
      | none => true
      | some lo => decide (lo ≤ j.salaryMax))
  && (match f.salaryMax with
      | none => true
      | some hi => decide (j.salaryMin ≤ hi))

/-- Modelled from the spec: the Filtered Search Query Engine restricted to
its filter semantics — the documents satisfying every supplied criterion. -/
def filteredSearch (f : SearchFilters) (docs : List Job) : List Job :=
  docs.filter (matchesFilters f)

/-! ### Concrete inputs used by witnesses and counterexamples -/

/-- The last write recorded for key `k` in a list of writes, if any. -/
def lookupLast (k : String) : List (String × String) → Option String
  | [] => none
  | kv :: ws =>
    match lookupLast k ws with
    | some v => some v
    | none => if k = kv.1 then some kv.2 else none

/-- A context holding a job list under `JobKey` and a client under
`ClientKey`, as the production caller builds it. -/
def mkCtx (jobs : List Job) (c : Nat) : Context :=
  fun k =>
    if k = JobKey then some (CtxValue.jobs jobs)
    else if k = ClientKey then some (CtxValue.client c)
    else none

/-- An environment where every external call succeeds. -/
def envOK : BulkEnv :=
  ⟨none, fun _ => none, fun _ => true⟩

/-- An environment where establishing the indexing session fails. -/
def envSessionFail : BulkEnv :=
  ⟨some "connection refused", fun _ => none, fun _ => true⟩

/-- An environment where the index acknowledges no item (every
individual document indexing attempt fails). -/
def envNoAck : BulkEnv :=
  ⟨none, fun _ => none, fun _ => false⟩

/-- A sample job with id 42. -/
def job42 : Job :=
  ⟨42, "Dev", "IT", "Acme", "d", "NY", 10000, 20000, "r", ["Go", "SQL"]⟩

/-- A context carrying the single job `job42` and a client. -/
def ctx42 : Context := mkCtx [job42] 0

/-- A context carrying an empty job list and a client. -/
def ctxEmptyJobs : Context := mkCtx [] 0

/-- A context whose `JobKey` entry holds a value of the wrong dynamic
type (a string instead of `[]Job`). -/
def ctxBadJobs : Context :=
  fun k =>
    if k = JobKey then some (CtxValue.other "s")
    else if k = ClientKey then some (CtxValue.client 0) else none

/-- The spec scenario's `JobSkill` rows: job 1 declares Go and SQL,
job 2 declares Go and Rust, job 3 declares SQL. -/
def rows3 : List JobSkillRow :=
  [⟨1, "Go"⟩, ⟨1, "SQL"⟩, ⟨2, "Go"⟩, ⟨2, "Rust"⟩, ⟨3, "SQL"⟩]

/-- The spec scenario's filters: salary floor 50000, ceiling 80000,
no other criteria. -/
def f50to80 : SearchFilters :=
  ⟨none, none, none, some 50000, some 80000⟩

/-- The spec scenario's job with salary range [20000, 40000]. -/
def job20to40 : Job :=
  ⟨10, "A", "", "", "", "", 20000, 40000, "", []⟩

/-- The spec scenario's job with salary range [60000, 90000]. -/
def job60to90 : Job :=
  ⟨11, "B", "", "", "", "", 60000, 90000, "", []⟩

/-- A sample reader yielding two chunks and a clean EOF. -/
def reader0 : Reader := ⟨["ab", "cd"], none⟩

/-! ### Helper lemmas -/

theorem convert_newJSONReader (j : Job) :
    convertToReadSeeker (newJSONReader j) = .ok (bytesNewReader j.encode) := by
  simp [convertToReadSeeker, newJSONReader, readAll, String.join]

theorem dispatchLoop_noAddErr (env : BulkEnv) (h : ∀ n, env.addErr n = none) :
    ∀ (i : Nat) (jobs : List Job),
      dispatchLoop env i jobs =
        ((List.enumFrom i jobs).map
          (fun p => ⟨"index", toString p.1, bytesNewReader (Job.encode p.2)⟩), none) := by
  intro i jobs
  induction jobs generalizing i with
  | nil => rfl
  | cons j rest ih =>
    simp [dispatchLoop, convert_newJSONReader, h i, ih (i + 1), List.enumFrom]

theorem filter_bool_length {α : Type} (p : α → Bool) :
    ∀ l : List α, (l.filter p).length + (l.filter (fun x => !p x)).length = l.length := by
  intro l
  induction l with
  | nil => rfl
  | cons x xs ih =>
    by_cases hx : p x = true
    · simp [List.filter, hx, Nat.succ_add, ih]
    · simp [List.filter, hx]
      omega

theorem numIndexed_add_numFailed (env : BulkEnv) (items : List BulkIndexerItem) :
    numIndexed env items + numFailed env items = items.length := by
  have h := filter_bool_length (fun i => env.ack i) (List.range items.length)
  simpa [numIndexed, numFailed] using h

theorem applyWrites_apply (ws : List (String × String)) :
    ∀ (s : IndexState) (k : String),
      applyWrites ws s k =
        match lookupLast k ws with
        | some v => some v
        | none => s k := by
  induction ws with
  | nil => intro s k; rfl
  | cons kv ws ih =>
    intro s k
    simp only [applyWrites, lookupLast, ih]
    cases lookupLast k ws with
    | some v => rfl
    | none => by_cases hk : k = kv.1 <;> simp [storeWrite, hk]

theorem applyWrites_idem (ws : List (String × String)) (s : IndexState) :
    applyWrites ws (applyWrites ws s) = applyWrites ws s := by
  funext k
  rw [applyWrites_apply, applyWrites_apply]
  cases h : lookupLast k ws with
  | some v => rfl
  | none => rfl

theorem rankLE_total (a b : MatchResult) : rankLE a b = true ∨ rankLE b a = true := by
  simp only [rankLE, Bool.or_eq_true, Bool.and_eq_true, decide_eq_true_eq, beq_iff_eq]
  omega

theorem rankLE_trans {a b c : MatchResult} (h1 : rankLE a b = true)
    (h2 : rankLE b c = true) : rankLE a c = true := by
  simp only [rankLE, Bool.or_eq_true, Bool.and_eq_true, decide_eq_true_eq, beq_iff_eq] at *
  omega

theorem mem_insertRanked (x a : MatchResult) :
    ∀ l : List MatchResult, x ∈ insertRanked a l ↔ x = a ∨ x ∈ l := by
  intro l
  induction l with
  | nil => simp [insertRanked]
  | cons b rest ih =>
    by_cases h : rankLE a b = true
    · simp [insertRanked, h]
    · simp [insertRanked, h, ih]
      tauto

theorem pairwise_insertRanked (a : MatchResult) :
    ∀ l : List MatchResult, l.Pairwise (fun x y => rankLE x y = true) →
      (insertRanked a l).Pairwise (fun x y => rankLE x y = true) := by
  intro l
  induction l with
  | nil => intro _; simp [insertRanked]
  | cons b rest ih =>
    intro hp
    rw [List.pairwise_cons] at hp
    obtain ⟨hb, hrest⟩ := hp
    by_cases h : rankLE a b = true
    · simp only [insertRanked, h, if_true]
      rw [List.pairwise_cons]
      refine ⟨?_, ?_⟩
      · intro x hx
        rcases List.mem_cons.mp hx with rfl | hx'
        · exact h
        · exact rankLE_trans h (hb x hx')
      · rw [List.pairwise_cons]
        exact ⟨hb, hrest⟩
    · simp only [insertRanked, h, if_false, Bool.false_eq_true]
      rw [List.pairwise_cons]
      refine ⟨?_, ih hrest⟩
      intro x hx
      rcases (mem_insertRanked x a rest).mp hx with heq | hx'
      · rw [heq]
        rcases rankLE_total a b with h1 | h2
        · exact absurd h1 h
        · exact h2
      · exact hb x hx'

theorem pairwise_rankSort :
    ∀ l : List MatchResult, (rankSort l).Pairwise (fun x y => rankLE x y = true) := by
  intro l
  induction l with
  | nil => simp [rankSort]
  | cons a rest ih => exact pairwise_insertRanked a (rankSort rest) ih

theorem mem_rankSort (x : MatchResult) : ∀ l : List MatchResult, x ∈ rankSort l ↔ x ∈ l := by
  intro l
  induction l with
  | nil => simp [rankSort]
  | cons a rest ih => simp [rankSort, mem_insertRanked, ih]

/-! ### Claim theorems -/

/-- Claim C1 — the code evaluated at the failing input. The claim says
every bulk item's document identifier equals the Document's job id field;
the code sets it to `strconv.Itoa` of the slice position instead: for the
single-job list `[job42]` the dispatched item carries DocumentID `"0"`,
while the Document's job id is `42` (whose decimal rendering is `"42"`,
not `"0"`). -/
theorem C1_documentID_is_slice_position :
    (IndexJobsAsDocuments envOK ctx42).dispatched.map (fun it => it.documentID) = ["0"]
    ∧ job42.id = 42
    ∧ toString job42.id = "42"
    ∧ ("0" : String) ≠ "42" :=
  ⟨rfl, rfl, rfl, by decide⟩

/-- Claim C2 — counterexample. A failure to establish the indexing session
(`esutil.NewBulkIndexer` returning an error) is raised as `panic(err)`:
the run's outcome is a panic, not a terminal error value handed to the
caller, refuting the claim that the abort "is reported to the caller as a
single terminal error value" and that "no failure path terminates the
process". -/
theorem C2_session_failure_panics :
    IndexJobsAsDocuments envSessionFail ctx42 =
      ⟨Outcome.panicked "connection refused", []⟩ :=
  rfl

/-- Claim C2 — amended. An individual document indexing failure (an item
the index does not acknowledge) never aborts the batch: with the session
established and every enqueue accepted, every job in the list is
dispatched and the run completes, the failures being recorded in the
aggregate statistics (`numIndexed + numFailed` accounts for every
dispatched item). A failure to establish the indexing session aborts the
whole run — but by panicking, not by returning an error value (the
function has no return values). -/
theorem C2_failure_policy (env : BulkEnv) (ctx : Context) (jobs : List Job) (c : Nat)
    (hjobs : ctx JobKey = some (CtxValue.jobs jobs))
    (hclient : ctx ClientKey = some (CtxValue.client c)) :
    (∀ e, env.sessionErr = some e →
      IndexJobsAsDocuments env ctx = ⟨Outcome.panicked e, []⟩)
    ∧ (env.sessionErr = none → (∀ n, env.addErr n = none) →
      ∃ items,
        IndexJobsAsDocuments env ctx =
          ⟨Outcome.completed (logLine (numIndexed env items)), items⟩
        ∧ items.length = jobs.length
        ∧ numIndexed env items + numFailed env items = items.length) := by
  constructor
  · intro e he
    simp [IndexJobsAsDocuments, hjobs, hclient, he]
  · intro hs ha
    have hd := dispatchLoop_noAddErr env ha 0 jobs
    refine ⟨(dispatchLoop env 0 jobs).1, ?_, ?_, numIndexed_add_numFailed env _⟩
    · simp [IndexJobsAsDocuments, hjobs, hclient, hs, hd]
    · rw [hd]
      simp

/-- Claim C2 — witness for the amended theorem at a concrete input. -/
theorem C2_failure_policy_witness :
    ∃ items,
      IndexJobsAsDocuments envOK ctx42 =
        ⟨Outcome.completed (logLine (numIndexed envOK items)), items⟩
      ∧ items.length = [job42].length
      ∧ numIndexed envOK items + numFailed envOK items = items.length :=
  (C2_failure_policy envOK ctx42 [job42] 0 rfl rfl).2 rfl (fun _ => rfl)

/-- Claim C3 — counterexample. A run over one job whose indexing the index
refuses (one recorded failure) and a run over no jobs at all (no failure)
produce the identical caller-visible outcome — the same log line and no
returned value — so the number failed and the identities of failed items
cannot be recovered by the caller from what the operation yields. -/
theorem C3_stats_not_yielded :
    (IndexJobsAsDocuments envNoAck ctx42).outcome =
      (IndexJobsAsDocuments envOK ctxEmptyJobs).outcome
    ∧ numFailed envNoAck (IndexJobsAsDocuments envNoAck ctx42).dispatched = 1
    ∧ numFailed envOK (IndexJobsAsDocuments envOK ctxEmptyJobs).dispatched = 0 :=
  ⟨rfl, rfl, rfl⟩

/-- Claim C3 — amended. The synchronizer closes the indexer and reads the
aggregate statistics only after every document in the input has been
dispatched (the statistics account for every enqueued item, acknowledged
or failed), but what it then yields is a single log line carrying the
number indexed; the number failed and the per-item failure details are
not part of any value returned to the caller. -/
theorem C3_flush_then_log (env : BulkEnv) (ctx : Context) (jobs : List Job) (c : Nat)
    (hjobs : ctx JobKey = some (CtxValue.jobs jobs))
    (hclient : ctx ClientKey = some (CtxValue.client c))
    (hs : env.sessionErr = none) (ha : ∀ n, env.addErr n = none) :
    IndexJobsAsDocuments env ctx =
      ⟨Outcome.completed (logLine (numIndexed env (dispatchLoop env 0 jobs).1)),
        (dispatchLoop env 0 jobs).1⟩
    ∧ (dispatchLoop env 0 jobs).1.length = jobs.length
    ∧ numIndexed env (dispatchLoop env 0 jobs).1
        + numFailed env (dispatchLoop env 0 jobs).1 = jobs.length := by
  have hd := dispatchLoop_noAddErr env ha 0 jobs
  have hlen : (dispatchLoop env 0 jobs).1.length = jobs.length := by
    rw [hd]; simp
  refine ⟨?_, hlen, ?_⟩
  · simp [IndexJobsAsDocuments, hjobs, hclient, hs, hd]
  · rw [numIndexed_add_numFailed env _, hlen]

/-- Claim C3 — witness for the amended theorem: the failing-item run. -/
theorem C3_flush_then_log_witness :
    IndexJobsAsDocuments envNoAck ctx42 =
      ⟨Outcome.completed (logLine (numIndexed envNoAck (dispatchLoop envNoAck 0 [job42]).1)),
        (dispatchLoop envNoAck 0 [job42]).1⟩
    ∧ (dispatchLoop envNoAck 0 [job42]).1.length = [job42].length
    ∧ numIndexed envNoAck (dispatchLoop envNoAck 0 [job42]).1
        + numFailed envNoAck (dispatchLoop envNoAck 0 [job42]).1 = [job42].length :=
  C3_flush_then_log envNoAck ctx42 [job42] 0 rfl rfl rfl (fun _ => rfl)

/-- Claim C4: synchronizing the same input sequence twice leaves the index
in an observable state identical to the state after the first run — for
every document key the stored bytes agree, byte for byte. -/
theorem C4_sync_idempotent (env : BulkEnv) (jobs : List Job) (s : IndexState) :
    syncOnce env jobs (syncOnce env jobs s) = syncOnce env jobs s :=
  applyWrites_idem _ _

/-- Claim C5: the Document type carries exactly the ten fields job id,
title, industry, company name, description, location, salary min, salary
max, requirements and the ordered skill list — two Documents are equal
exactly when those ten fields agree — and the skill list placed in a
Document is preserved in full. -/
theorem C5_document_fields :
    (∀ j k : Job, j = k ↔
      (j.id = k.id ∧ j.title = k.title ∧ j.industry = k.industry ∧
       j.companyName = k.companyName ∧ j.description = k.description ∧
       j.location = k.location ∧ j.salaryMin = k.salaryMin ∧
       j.salaryMax = k.salaryMax ∧ j.requirements = k.requirements ∧
       j.jobSkills = k.jobSkills))
    ∧ (∀ (i : Int) (t ind cn d loc : String) (smin smax : Int)
        (req : String) (skills : List String),
        (Job.mk i t ind cn d loc smin smax req skills).jobSkills = skills) := by
  constructor
  · intro j k
    cases j; cases k
    simp [Job.mk.injEq]
  · intro i t ind cn d loc smin smax req skills
    rfl

/-- Claim C6: every result of the Skill Matching Engine carries as score
the number of queried skills the job declares and that score is positive
(zero-overlap jobs are excluded); the result list is sorted by score
descending with ties broken by job id ascending; and on the spec scenario
(jobs with skills Go+SQL, Go+Rust, SQL; query Go+SQL) the result is
[job 1 score 2, job 2 score 1, job 3 score 1]. -/
theorem C6_skill_matching :
    (∀ (rows : List JobSkillRow) (query : List String) (m : MatchResult),
        m ∈ matchSkills rows query →
          m.score = overlapScore rows query m.jobID ∧ 0 < m.score)
    ∧ (∀ (rows : List JobSkillRow) (query : List String),
        (matchSkills rows query).Pairwise (fun a b => rankLE a b = true))
    ∧ matchSkills rows3 ["Go", "SQL"] =
        [MatchResult.mk 1 2, MatchResult.mk 2 1, MatchResult.mk 3 1] := by
  refine ⟨?_, ?_, by decide⟩
  · intro rows query m hm
    have hm' := (mem_rankSort m _).mp hm
    rw [List.mem_filter] at hm'
    obtain ⟨hmap, hpos⟩ := hm'
    rw [List.mem_map] at hmap
    obtain ⟨jid, _, hq⟩ := hmap
    subst hq
    exact ⟨rfl, by simpa using hpos⟩
  · intro rows query
    exact pairwise_rankSort _

/-- Claim C6 — witness: the head of the scenario result, with its
membership hypothesis discharged concretely. -/
theorem C6_skill_matching_witness :
    (MatchResult.mk 1 2).score = overlapScore rows3 ["Go", "SQL"] (MatchResult.mk 1 2).jobID
    ∧ 0 < (MatchResult.mk 1 2).score :=
  C6_skill_matching.1 rows3 ["Go", "SQL"] (MatchResult.mk 1 2) (by decide)

/-- Claim C7: when both a salary floor and a ceiling are supplied, a job
is included in the filtered search exactly when it is among the queried
documents, satisfies all other supplied criteria, and has
`salary_max ≥ floor` and `salary_min ≤ ceiling`; with floor 50000 and
ceiling 80000 the job with range [60000, 90000] is included and the job
with range [20000, 40000] is excluded. -/
theorem C7_salary_bounds :
    (∀ (docs : List Job) (f : SearchFilters) (j : Job) (lo hi : Int),
        f.salaryMin = some lo → f.salaryMax = some hi →
          (j ∈ filteredSearch f docs ↔
            (j ∈ docs ∧ otherCriteria f j = true
              ∧ lo ≤ j.salaryMax ∧ j.salaryMin ≤ hi)))
    ∧ job60to90 ∈ filteredSearch f50to80 [job20to40, job60to90]
    ∧ job20to40 ∉ filteredSearch f50to80 [job20to40, job60to90] := by
  refine ⟨?_, by decide, by decide⟩
  intro docs f j lo hi hlo hhi
  rw [filteredSearch, List.mem_filter, matchesFilters, hlo, hhi]
  simp [and_assoc]

/-- Claim C7 — witness: the inclusion criterion instantiated at the
scenario's included job, hypotheses discharged concretely. -/
theorem C7_salary_bounds_witness :
    job60to90 ∈ filteredSearch f50to80 [job20to40, job60to90] ↔
      (job60to90 ∈ [job20to40, job60to90] ∧ otherCriteria f50to80 job60to90 = true
        ∧ (50000 : Int) ≤ job60to90.salaryMax ∧ job60to90.salaryMin ≤ (80000 : Int)) :=
  C7_salary_bounds.1 [job20to40, job60to90] f50to80 job60to90 50000 80000 rfl rfl

/-- Claim C8: skill matching on an empty skill set returns the empty
result list, whatever the contents of the relational store (and no
storage-kind error — the engine returns a plain list). -/
theorem C8_empty_skill_set (rows : List JobSkillRow) : matchSkills rows [] = [] := by
  have hc : candidateIDs rows [] = [] := by
    simp [candidateIDs, List.filter_eq_nil_iff]
  simp [matchSkills, hc, rankSort]

/-- Claim C9: `IndexJobsAsDocuments` requires its context to carry a
`[]Job` under `JobKey` and a `*elasticsearch.Client` under `ClientKey`;
whenever either entry is absent or holds a value of a different dynamic
type, the run panics with the type-assertion panic before any indexing
work (no item is dispatched), and — the function having no return
values — the caller observes nothing but that panic. -/
theorem C9_context_precondition (env : BulkEnv) (ctx : Context)
    (h : (∀ js, ctx JobKey ≠ some (CtxValue.jobs js))
        ∨ (∀ c, ctx ClientKey ≠ some (CtxValue.client c))) :
    IndexJobsAsDocuments env ctx = ⟨Outcome.panicked typeAssertionPanic, []⟩ := by
  rcases h with h | h
  · cases hv : ctx JobKey with
    | none => simp [IndexJobsAsDocuments, hv]
    | some v =>
      cases v with
      | jobs js => exact absurd hv (h js)
      | client c => simp [IndexJobsAsDocuments, hv]
      | other s => simp [IndexJobsAsDocuments, hv]
  · cases hv : ctx JobKey with
    | none => simp [IndexJobsAsDocuments, hv]
    | some v =>
      cases v with
      | jobs js =>
        cases hw : ctx ClientKey with
        | none => simp [IndexJobsAsDocuments, hv, hw]
        | some w =>
          cases w with
          | jobs js2 => simp [IndexJobsAsDocuments, hv, hw]
          | client c => exact absurd hw (h c)
          | other s => simp [IndexJobsAsDocuments, hv, hw]
      | client c => simp [IndexJobsAsDocuments, hv]
      | other s => simp [IndexJobsAsDocuments, hv]

/-- Claim C9 — witness: a context whose `JobKey` entry holds a string. -/
theorem C9_context_precondition_witness :
    IndexJobsAsDocuments envOK ctxBadJobs = ⟨Outcome.panicked typeAssertionPanic, []⟩ :=
  C9_context_precondition envOK ctxBadJobs
    (Or.inl (by intro js hcontra; simp [ctxBadJobs, JobKey] at hcontra))

/-- Claim C10: `convertToReadSeeker` returns an error exactly when reading
the input fails (and then it propagates that very error), and on success
the returned seekable reader, read from the start, holds exactly the
bytes of the input reader. -/
theorem C10_convert_roundtrip (r : Reader) :
    ((∃ e, convertToReadSeeker r = .error e) ↔ (readAll r).2 ≠ none)
    ∧ (∀ e, (readAll r).2 = some e → convertToReadSeeker r = .error e)
    ∧ (∀ rs, convertToReadSeeker r = .ok rs → rs.readFromStart = (readAll r).1) := by
  rcases r with ⟨chunks, failure⟩
  cases failure with
  | none =>
    refine ⟨by simp [convertToReadSeeker, readAll], by simp [readAll], ?_⟩
    intro rs hrs
    rw [convertToReadSeeker] at hrs
    simp only [readAll] at hrs ⊢
    cases hrs
    rfl
  | some e =>
    refine ⟨by simp [convertToReadSeeker, readAll], ?_, ?_⟩
    · intro e' he'
      simp only [readAll] at he'
      cases he'
      rfl
    · intro rs hrs
      simp [convertToReadSeeker, readAll] at hrs

/-- Claim C10 — witness: a two-chunk reader with a clean EOF. -/
theorem C10_convert_roundtrip_witness :
    (bytesNewReader "abcd").readFromStart = (readAll reader0).1 :=
  (C10_convert_roundtrip reader0).2.2 (bytesNewReader "abcd") (by rfl)

end JobSearch
